import Mathlib

/-!
Shallow embedding of the decision core of the wacht uptime monitor:
the quorum predicates (internal/quorum), the incident store operations
(internal/store), the decision engine driven by the result-ingest handler
(internal/server handleResult), and the probe agent's check dispatch
(cmd/wacht-probe). Machine integers are modelled as Nat; times as Nat
ticks; database rows as lists.
-/

namespace Wacht

/-- A single observation produced by a probe (proto.CheckResult).
The Go field Type is rendered as ty because Type is reserved in Lean;
Latency is in milliseconds and Timestamp is an abstract tick count. -/
structure CheckResult where
  CheckID : String
  ProbeID : String
  ty : String
  Target : String
  Up : Bool
  Latency : Nat
  Error : String
  Timestamp : Nat
deriving DecidableEq, Repr

/-- quorum.consecutiveFailureThreshold: number of consecutive down results
required from a single probe before it is considered a real outage. -/
def consecutiveFailureThreshold : Nat := 2

/-- quorum.MajorityDown: true if a strict majority of the ballot reports the
check as down. The Go loop counts entries with !r.Up and compares the count
against len(results)/2 with integer division. -/
def MajorityDown (results : List CheckResult) : Bool :=
  if results.isEmpty then false
  else decide (results.countP (fun r => !r.Up) > results.length / 2)

/-- quorum.AllConsecutivelyDown: true if the slice has at least the threshold
number of entries and every entry is down (the Go loop returns false on the
first entry with r.Up). -/
def AllConsecutivelyDown (results : List CheckResult) : Bool :=
  if results.length < consecutiveFailureThreshold then false
  else results.all (fun r => !r.Up)

/-- server.countDown: number of down entries in a result slice. -/
def countDown (results : List CheckResult) : Nat :=
  results.countP (fun r => !r.Up)

/-- Test helper mirroring quorum_test.results: a ballot whose entries carry
only their Up bit, all other fields zeroed. -/
def resultUp (u : Bool) : CheckResult :=
  { CheckID := "", ProbeID := "", ty := "", Target := "", Up := u,
    Latency := 0, Error := "", Timestamp := 0 }

/-- A ballot built from a list of up/down bits, as in the quorum tests. -/
def ballotOf (ups : List Bool) : List CheckResult :=
  ups.map resultUp

lemma majorityDown_iff (b : List CheckResult) :
    MajorityDown b = true ↔ 2 * countDown b > b.length := by
  cases b with
  | nil => simp [MajorityDown, countDown]
  | cons r rs =>
    rw [MajorityDown, countDown]
    simp only [List.isEmpty_cons, Bool.false_eq_true, if_false, decide_eq_true_eq]
    omega

/-- C1: the majority-down predicate holds iff strictly more than half of the
ballot entries are down (2 * down > size); a 2-of-4 tie is not majority-down
and the empty ballot is never majority-down. -/
theorem majorityDown_strict_majority :
    (∀ b : List CheckResult, MajorityDown b = true ↔ 2 * countDown b > b.length)
    ∧ MajorityDown (ballotOf [false, false, true, true]) = false
    ∧ MajorityDown [] = false :=
  ⟨majorityDown_iff, by decide, by decide⟩

/-- C3: the consecutive-failure predicate holds iff the history has length at
least 2 and every entry is down; in particular a singleton history (a probe
whose first-ever result is down) never satisfies it. -/
theorem allConsecutivelyDown_iff :
    (∀ h : List CheckResult,
      AllConsecutivelyDown h = true ↔ 2 ≤ h.length ∧ ∀ r ∈ h, r.Up = false)
    ∧ ∀ r : CheckResult, AllConsecutivelyDown [r] = false := by
  constructor
  · intro h
    by_cases hl : h.length < consecutiveFailureThreshold
    · rw [AllConsecutivelyDown, if_pos hl]
      unfold consecutiveFailureThreshold at hl
      simp only [Bool.false_eq_true, false_iff, not_and]
      intro h2
      omega
    · rw [AllConsecutivelyDown, if_neg hl, List.all_eq_true]
      unfold consecutiveFailureThreshold at hl
      constructor
      · intro ha
        exact ⟨by omega, fun r hr => by simpa using ha r hr⟩
      · intro hc r hr
        simpa using hc.2 r hr
  · intro r
    rfl

/-- An incident row (store: incidents table). resolved_at is null while the
incident is open. Row ids are implicit in the list position; started_at and
resolved_at are abstract ticks. -/
structure Incident where
  check_id : String
  started_at : Nat
  resolved_at : Option Nat
deriving DecidableEq, Repr

/-- The incidents table, rows in insertion (id) order. -/
abbrev IncidentTable := List Incident

/-- The WHERE clause shared by OpenIncident's COUNT and ResolveIncident's
UPDATE: check_id matches and resolved_at IS NULL. -/
def isOpenFor (checkID : String) (i : Incident) : Bool :=
  i.check_id == checkID && i.resolved_at.isNone

/-- SELECT COUNT of rows with the given check_id and resolved_at IS NULL. -/
def openCount (tbl : IncidentTable) (checkID : String) : Nat :=
  tbl.countP (isOpenFor checkID)

/-- store.OpenIncident: count open rows for checkID; if one exists return
alreadyOpen=true and leave the table unchanged, otherwise insert a new row
with started_at = now and a null resolved_at. -/
def OpenIncident (tbl : IncidentTable) (checkID : String) (now : Nat) :
    Bool × IncidentTable :=
  if openCount tbl checkID > 0 then (true, tbl)
  else (false, tbl ++ [{ check_id := checkID, started_at := now, resolved_at := none }])

/-- store.ResolveIncident: UPDATE incidents SET resolved_at = now WHERE
check_id = checkID AND resolved_at IS NULL. -/
def ResolveIncident (tbl : IncidentTable) (checkID : String) (now : Nat) :
    IncidentTable :=
  tbl.map (fun i => if isOpenFor checkID i then { i with resolved_at := some now } else i)

/-- The invariant of claim C5: at most one open incident row per check_id. -/
def AtMostOneOpen (tbl : IncidentTable) : Prop :=
  ∀ checkID : String, openCount tbl checkID ≤ 1

/-- A serialized trace of incident-store writes, as issued by the decision
engine (the only writer of the incidents table). -/
inductive StoreOp where
  | openInc (checkID : String) (now : Nat)
  | resolveInc (checkID : String) (now : Nat)

/-- Apply one store operation to the table. -/
def applyOp (tbl : IncidentTable) : StoreOp → IncidentTable
  | .openInc c n => (OpenIncident tbl c n).2
  | .resolveInc c n => ResolveIncident tbl c n

/-- Run a serialized trace of store operations from the empty table. -/
def runOps (ops : List StoreOp) : IncidentTable :=
  ops.foldl applyOp []

lemma isOpenFor_iff (checkID : String) (i : Incident) :
    isOpenFor checkID i = true ↔ i.check_id = checkID ∧ i.resolved_at = none := by
  simp [isOpenFor, Option.isNone_iff_eq_none]

lemma openCount_nil (checkID : String) : openCount [] checkID = 0 := rfl

lemma openCount_append (t1 t2 : IncidentTable) (checkID : String) :
    openCount (t1 ++ t2) checkID = openCount t1 checkID + openCount t2 checkID := by
  simp [openCount, List.countP_append]

lemma openCount_resolve (tbl : IncidentTable) (c : String) (n : Nat) (cid : String) :
    openCount (ResolveIncident tbl c n) cid
      = if cid = c then 0 else openCount tbl cid := by
  induction tbl with
  | nil => simp [ResolveIncident, openCount]
  | cons i rest ih =>
    simp only [ResolveIncident, List.map_cons] at ih ⊢
    simp only [openCount, List.countP_cons] at ih ⊢
    by_cases hi : isOpenFor c i
    · rw [if_pos hi]
      have hopen : isOpenFor cid { i with resolved_at := some n } = false := by
        simp [isOpenFor]
      rcases (isOpenFor_iff c i).mp hi with ⟨hc, _⟩
      by_cases hcid : cid = c
      · subst hcid
        simp only [if_pos rfl] at ih
        simp [hopen, ih]
      · have hio : isOpenFor cid i = false := by
          simp [isOpenFor, hc, Ne.symm hcid]
        simp [hopen, hio, ih, hcid]
    · rw [if_neg hi]
      by_cases hcid : cid = c
      · subst hcid
        have hio : isOpenFor cid i = false := by
          cases h : isOpenFor cid i
          · rfl
          · exact absurd h hi
        simp [hio, ih]
      · simp [ih, hcid]

lemma atMostOneOpen_nil : AtMostOneOpen [] := by
  intro checkID
  simp [openCount]

lemma atMostOneOpen_openIncident (tbl : IncidentTable) (c : String) (n : Nat)
    (h : AtMostOneOpen tbl) : AtMostOneOpen ((OpenIncident tbl c n).2) := by
  unfold OpenIncident
  by_cases hc : openCount tbl c > 0
  · simpa [hc] using h
  · simp only [hc, if_false]
    intro cid
    rw [openCount_append]
    by_cases hcid : cid = c
    · subst hcid
      have h0 : openCount tbl cid = 0 := by omega
      have h1 : openCount [({ check_id := cid, started_at := n, resolved_at := none } : Incident)] cid = 1 := by
        simp [openCount, isOpenFor]
      omega
    · have h1 : openCount [({ check_id := c, started_at := n, resolved_at := none } : Incident)] cid = 0 := by
        simp [openCount, isOpenFor, Ne.symm hcid]
      have := h cid
      omega

lemma atMostOneOpen_resolveIncident (tbl : IncidentTable) (c : String) (n : Nat)
    (h : AtMostOneOpen tbl) : AtMostOneOpen (ResolveIncident tbl c n) := by
  intro cid
  rw [openCount_resolve]
  by_cases hcid : cid = c
  · simp [hcid]
  · simpa [hcid] using h cid

lemma atMostOneOpen_foldl (ops : List StoreOp) :
    ∀ tbl : IncidentTable, AtMostOneOpen tbl → AtMostOneOpen (ops.foldl applyOp tbl) := by
  induction ops with
  | nil => intro tbl h; exact h
  | cons op rest ih =>
    intro tbl h
    rw [List.foldl_cons]
    apply ih
    cases op with
    | openInc c n => exact atMostOneOpen_openIncident tbl c n h
    | resolveInc c n => exact atMostOneOpen_resolveIncident tbl c n h

/-- C5: every table reachable by a serialized trace of incident-store writes
has at most one open incident row per check_id, and each individual operation
(OpenIncident, ResolveIncident) preserves that invariant. -/
theorem incident_open_uniqueness :
    (∀ ops : List StoreOp, AtMostOneOpen (runOps ops))
    ∧ (∀ (tbl : IncidentTable) (c : String) (n : Nat), AtMostOneOpen tbl →
        AtMostOneOpen ((OpenIncident tbl c n).2) ∧ AtMostOneOpen (ResolveIncident tbl c n)) := by
  constructor
  · intro ops
    exact atMostOneOpen_foldl ops [] atMostOneOpen_nil
  · intro tbl c n h
    exact ⟨atMostOneOpen_openIncident tbl c n h, atMostOneOpen_resolveIncident tbl c n h⟩

/-- Witness for C5 at a concrete trace and a concrete table. -/
theorem incident_open_uniqueness_witness :
    AtMostOneOpen (runOps [StoreOp.openInc "check-1" 0, StoreOp.openInc "check-1" 1])
    ∧ AtMostOneOpen ((OpenIncident [] "check-1" 0).2) :=
  ⟨incident_open_uniqueness.1 _,
   (incident_open_uniqueness.2 [] "check-1" 0 (by intro cid; simp [openCount])).1⟩

lemma openCount_after_open (tbl : IncidentTable) (c : String) (n : Nat) :
    0 < openCount ((OpenIncident tbl c n).2) c := by
  unfold OpenIncident
  by_cases h : openCount tbl c > 0
  · simp only [h, if_true]
  · simp only [h, if_false]
    rw [openCount_append]
    have h1 : openCount [({ check_id := c, started_at := n, resolved_at := none } : Incident)] c = 1 := by
      simp [openCount, isOpenFor]
    omega

lemma openIncident_alreadyOpen (tbl : IncidentTable) (c : String) (n : Nat)
    (h : 0 < openCount tbl c) : OpenIncident tbl c n = (true, tbl) := by
  unfold OpenIncident
  simp [h]

/-- C6: a second OpenIncident for the same check_id without an intervening
resolve is a no-op: it reports alreadyOpen = true and inserts no row. -/
theorem openIncident_idempotent (tbl : IncidentTable) (c : String) (n n2 : Nat) :
    (OpenIncident ((OpenIncident tbl c n).2) c n2).1 = true
    ∧ (OpenIncident ((OpenIncident tbl c n).2) c n2).2 = (OpenIncident tbl c n).2 := by
  rw [openIncident_alreadyOpen _ _ _ (openCount_after_open tbl c n)]
  exact ⟨rfl, rfl⟩

/-- A monitored check (store.Check / config.Check). The Go field Type is
rendered as ty because Type is reserved in Lean. -/
structure Check where
  ID : String
  ty : String
  Target : String
  Webhook : String
deriving DecidableEq, Repr

/-- alert.AlertPayload: the JSON body POSTed to the webhook URL. -/
structure AlertPayload where
  check_id : String
  target : String
  status : String
  probes_down : Nat
  probes_total : Nat
deriving DecidableEq, Repr

/-- The consecutive-failure loop of server.handleResult: every down ballot
row must have AllConsecutivelyDown on its last-2 history (up rows are
skipped with continue). history gives LastN(check, probe, 2) per probe. -/
def allConsecutive (history : String → List CheckResult)
    (ballot : List CheckResult) : Bool :=
  ballot.all (fun r => r.Up || AllConsecutivelyDown (history r.ProbeID))

/-- The decision-engine part of server.handleResult, after the result has
been appended and the ballot re-queried (error-free paths; on a query error
the Go code only logs and takes no action, which is outside this step).
Returns the new incidents table and the webhook payload dispatched, if any.
chk is the result of looking up the check record (nil when absent). -/
def engineStep (checkID : String) (ballot : List CheckResult)
    (history : String → List CheckResult) (chk : Option Check)
    (tbl : IncidentTable) (now : Nat) : IncidentTable × Option AlertPayload :=
  if MajorityDown ballot then
    if allConsecutive history ballot then
      match OpenIncident tbl checkID now, chk with
      | (false, tbl2), some c =>
        if c.Webhook ≠ "" then
          (tbl2, some { check_id := checkID, target := c.Target, status := "down",
                        probes_down := countDown ballot, probes_total := ballot.length })
        else (tbl2, none)
      | (false, tbl2), none => (tbl2, none)
      | (true, tbl2), _ => (tbl2, none)
    else (tbl, none)
  else (ResolveIncident tbl checkID now, none)

lemma engineStep_inconclusive (checkID : String) (ballot : List CheckResult)
    (history : String → List CheckResult) (chk : Option Check)
    (tbl : IncidentTable) (now : Nat)
    (hmaj : MajorityDown ballot = true)
    (hcons : allConsecutive history ballot = false) :
    engineStep checkID ballot history chk tbl now = (tbl, none) := by
  simp [engineStep, hmaj, hcons]

/-- C4: when the ballot is majority-down but some down row fails the
consecutive-failure check, the round is inconclusive: the incidents table is
left untouched and no webhook payload is produced. -/
theorem inconclusive_round_no_change (checkID : String) (ballot : List CheckResult)
    (history : String → List CheckResult) (chk : Option Check)
    (tbl : IncidentTable) (now : Nat) (r : CheckResult)
    (hmaj : MajorityDown ballot = true)
    (hr : r ∈ ballot) (hdown : r.Up = false)
    (hfail : AllConsecutivelyDown (history r.ProbeID) = false) :
    engineStep checkID ballot history chk tbl now = (tbl, none) := by
  apply engineStep_inconclusive checkID ballot history chk tbl now hmaj
  cases hall : allConsecutive history ballot
  · rfl
  · rw [allConsecutive, List.all_eq_true] at hall
    have := hall r hr
    rw [hdown, hfail] at this
    simp at this

/-- Witness for C4: a 2-probe all-down ballot where each probe's history has
only a single (first-ever) down result. -/
theorem inconclusive_round_no_change_witness :
    engineStep "check-1" (ballotOf [false, false])
      (fun _ => ballotOf [false]) none [] 0 = ([], none) :=
  inconclusive_round_no_change "check-1" (ballotOf [false, false])
    (fun _ => ballotOf [false]) none [] 0 (resultUp false)
    (by decide) (by simp [ballotOf]) (by decide) (by decide)

lemma resolveIncident_noop (tbl : IncidentTable) (c : String) (n : Nat)
    (h : openCount tbl c = 0) : ResolveIncident tbl c n = tbl := by
  induction tbl with
  | nil => rfl
  | cons i rest ih =>
    rw [openCount, List.countP_cons] at h
    by_cases hi : isOpenFor c i
    · rw [hi] at h
      simp at h
    · have hrest : openCount rest c = 0 := by
        rw [openCount]
        cases hcase : isOpenFor c i
        · rw [hcase] at h
          simpa using h
        · exact absurd hcase hi
      simp only [ResolveIncident, List.map_cons, if_neg hi]
      simp only [ResolveIncident] at ih
      rw [ih hrest]

/-- C7: when the ballot is non-empty and not majority-down, the engine takes
the resolve branch: every open incident row for the check gets
resolved_at = some now, leaving none open; if none was open the table is
unchanged; no webhook payload is produced. -/
theorem not_majority_resolves (checkID : String) (ballot : List CheckResult)
    (history : String → List CheckResult) (chk : Option Check)
    (tbl : IncidentTable) (now : Nat)
    (_hne : ballot ≠ [])
    (hmaj : MajorityDown ballot = false) :
    engineStep checkID ballot history chk tbl now
      = (ResolveIncident tbl checkID now, none)
    ∧ openCount (ResolveIncident tbl checkID now) checkID = 0
    ∧ (openCount tbl checkID = 0 → ResolveIncident tbl checkID now = tbl) := by
  refine ⟨by simp [engineStep, hmaj], ?_, resolveIncident_noop tbl checkID now⟩
  rw [openCount_resolve]
  simp

/-- Witness for C7: a single-probe up ballot against a table holding one
open incident. -/
theorem not_majority_resolves_witness :
    engineStep "check-1" (ballotOf [true]) (fun _ => [])
        none [{ check_id := "check-1", started_at := 0, resolved_at := none }] 7
      = ([{ check_id := "check-1", started_at := 0, resolved_at := some 7 }], none)
    ∧ openCount (ResolveIncident
        [{ check_id := "check-1", started_at := 0, resolved_at := none }] "check-1" 7)
        "check-1" = 0 := by
  have h := not_majority_resolves "check-1" (ballotOf [true]) (fun _ => [])
    none [{ check_id := "check-1", started_at := 0, resolved_at := none }] 7
    (by simp [ballotOf]) (by decide)
  exact ⟨by rw [h.1]; rfl, h.2.1⟩

/-- C8: a webhook payload is produced iff the round is majority-down with
all down rows consecutively down, no incident was already open (rising
edge), the check record exists, and its webhook URL is non-empty; any
dispatched payload has the shape (check_id, target, "down", probes_down,
probes_total); no payload is ever produced on the resolve branch. -/
theorem webhook_rising_edge_only (checkID : String) (ballot : List CheckResult)
    (history : String → List CheckResult) (chk : Option Check)
    (tbl : IncidentTable) (now : Nat) :
    ((engineStep checkID ballot history chk tbl now).2 ≠ none ↔
      MajorityDown ballot = true ∧ allConsecutive history ballot = true
        ∧ openCount tbl checkID = 0
        ∧ ∃ c, chk = some c ∧ c.Webhook ≠ "")
    ∧ (∀ p, (engineStep checkID ballot history chk tbl now).2 = some p →
        ∃ c, chk = some c ∧
          p = { check_id := checkID, target := c.Target, status := "down",
                probes_down := countDown ballot, probes_total := ballot.length })
    ∧ (MajorityDown ballot = false →
        (engineStep checkID ballot history chk tbl now).2 = none) := by
  by_cases hmaj : MajorityDown ballot = true
  · by_cases hall : allConsecutive history ballot = true
    · by_cases hopen : openCount tbl checkID = 0
      · have hOI : OpenIncident tbl checkID now
            = (false, tbl ++ [{ check_id := checkID, started_at := now, resolved_at := none }]) := by
          unfold OpenIncident
          simp [hopen]
        rcases chk with _ | c
        · have hsnd : (engineStep checkID ballot history none tbl now).2 = none := by
            simp [engineStep, hmaj, hall, hOI]
          refine ⟨?_, ?_, ?_⟩
          · simp [hsnd]
          · intro p hp
            rw [hsnd] at hp
            exact absurd hp (by simp)
          · intro hcontra
            rw [hcontra] at hmaj
            simp at hmaj
        · by_cases hwb : c.Webhook = ""
          · have hsnd : (engineStep checkID ballot history (some c) tbl now).2 = none := by
              simp [engineStep, hmaj, hall, hOI, hwb]
            refine ⟨?_, ?_, ?_⟩
            · simp [hsnd, hwb]
            · intro p hp
              rw [hsnd] at hp
              exact absurd hp (by simp)
            · intro hcontra
              rw [hcontra] at hmaj
              simp at hmaj
          · have hsnd : (engineStep checkID ballot history (some c) tbl now).2
                = some { check_id := checkID, target := c.Target, status := "down",
                         probes_down := countDown ballot, probes_total := ballot.length } := by
              simp [engineStep, hmaj, hall, hOI, hwb]
            refine ⟨?_, ?_, ?_⟩
            · simp only [hsnd]
              constructor
              · intro _
                exact ⟨hmaj, hall, hopen, c, rfl, hwb⟩
              · intro _
                simp
            · intro p hp
              rw [hsnd] at hp
              exact ⟨c, rfl, (Option.some_inj.mp hp).symm⟩
            · intro hcontra
              rw [hcontra] at hmaj
              simp at hmaj
      · have hgt : 0 < openCount tbl checkID := by omega
        have hOI := openIncident_alreadyOpen tbl checkID now hgt
        have hsnd : (engineStep checkID ballot history chk tbl now).2 = none := by
          rcases chk with _ | c <;> simp [engineStep, hmaj, hall, hOI]
        refine ⟨?_, ?_, ?_⟩
        · simp [hsnd, hopen]
        · intro p hp
          rw [hsnd] at hp
          exact absurd hp (by simp)
        · intro hcontra
          rw [hcontra] at hmaj
          simp at hmaj
    · have hsnd : (engineStep checkID ballot history chk tbl now).2 = none := by
        simp [engineStep, hmaj, hall]
      refine ⟨?_, ?_, ?_⟩
      · simp [hsnd, hall]
      · intro p hp
        rw [hsnd] at hp
        exact absurd hp (by simp)
      · intro hcontra
        rw [hcontra] at hmaj
        simp at hmaj
  · have hsnd : (engineStep checkID ballot history chk tbl now).2 = none := by
      simp [engineStep, hmaj]
    refine ⟨?_, ?_, ?_⟩
    · simp [hsnd, hmaj]
    · intro p hp
      rw [hsnd] at hp
      exact absurd hp (by simp)
    · intro _
      exact hsnd

/-- Witness for C8: a clean 3-probe outage (1 up, 2 consecutively down)
against an empty incident table and a check with a webhook URL fires the
documented payload. -/
theorem webhook_rising_edge_only_witness :
    (engineStep "check-1" (ballotOf [true, false, false])
        (fun _ => ballotOf [false, false])
        (some { ID := "check-1", ty := "http", Target := "https://a.example",
                Webhook := "https://hooks.example" }) [] 3).2 ≠ none := by
  have h := webhook_rising_edge_only "check-1" (ballotOf [true, false, false])
    (fun _ => ballotOf [false, false])
    (some { ID := "check-1", ty := "http", Target := "https://a.example",
            Webhook := "https://hooks.example" }) [] 3
  exact h.1.mpr ⟨by decide, by decide, by simp [openCount],
    ⟨_, rfl, by decide⟩⟩

/-- C2 counterexample: the claim says a single-entry down ballot is not
majority-down, but the code (and its own test) evaluates MajorityDown on
that ballot to true, since down = 1 exceeds 1 / 2 = 0. -/
theorem singleDown_majorityDown_cex :
    MajorityDown (ballotOf [false]) = true := by decide

/-- C2 amended: for a ballot containing exactly one down entry the
majority-down predicate is TRUE (1 is a strict majority of 1); the engine
therefore proceeds to the consecutive-failure filter, and performs no state
transition only when that probe's last-2 history fails the filter (e.g. a
first-ever down result). -/
theorem singleDown_ballot_behavior (r : CheckResult) (h : r.Up = false) :
    MajorityDown [r] = true
    ∧ ∀ (checkID : String) (history : String → List CheckResult)
        (chk : Option Check) (tbl : IncidentTable) (now : Nat),
        AllConsecutivelyDown (history r.ProbeID) = false →
        engineStep checkID [r] history chk tbl now = (tbl, none) := by
  have hm : MajorityDown [r] = true := by
    apply (majorityDown_iff [r]).mpr
    simp [countDown, h]
  refine ⟨hm, ?_⟩
  intro checkID history chk tbl now hfail
  apply engineStep_inconclusive _ _ _ _ _ _ hm
  simp [allConsecutive, h, hfail]

/-- Witness for C2's amended claim at a concrete down result whose history
is a single first-ever down observation. -/
theorem singleDown_ballot_behavior_witness :
    MajorityDown [resultUp false] = true
    ∧ engineStep "check-1" [resultUp false] (fun _ => [resultUp false])
        none [] 0 = ([], none) := by
  have h := singleDown_ballot_behavior (resultUp false) (by decide)
  exact ⟨h.1, h.2 "check-1" (fun _ => [resultUp false]) none [] 0 (by decide)⟩

/-- store.RecentResultsByProbe: the last n results for a probe+check pair,
newest first (ORDER BY id DESC LIMIT n over the append-ordered log). -/
def recentResultsByProbe (log : List CheckResult) (checkID probeID : String)
    (n : Nat) : List CheckResult :=
  ((log.filter (fun r => r.CheckID == checkID && r.ProbeID == probeID)).reverse).take n

/-- store.RecentResultsPerProbe: the most recent result for each probe that
has reported for checkID (rows whose id is MAX(id) grouped by probe_id).
The fold keeps, for every probe, only its last appended row. -/
def recentResultsPerProbe (log : List CheckResult) (checkID : String) :
    List CheckResult :=
  (log.filter (fun r => r.CheckID == checkID)).foldl
    (fun acc r => acc.filter (fun x => x.ProbeID != r.ProbeID) ++ [r]) []

/-- store.IsProbeRegistered: COUNT of probes rows with this probe_id > 0. -/
def IsProbeRegistered (probes : List String) (probeID : String) : Bool :=
  probes.contains probeID

/-- server.checkByID: look up the check record by id (none when absent). -/
def checkByID (checks : List Check) (id : String) : Option Check :=
  checks.find? (fun c => c.ID == id)

/-- The aggregator state touched by the ingest endpoint: the registered
probe ids, the append-only result log, and the incidents table. -/
structure ServerState where
  probes : List String
  log : List CheckResult
  incidents : IncidentTable
deriving Repr

/-- server.handleResult (ingest endpoint), error-free paths: reject with 403
when the probe is unregistered (writing nothing); otherwise append the
result to the log, run the decision engine on the re-queried ballot, and
answer 204. Returns the new state, the HTTP status, and any webhook payload
dispatched. -/
def handleResult (checks : List Check) (st : ServerState) (result : CheckResult)
    (now : Nat) : ServerState × Nat × Option AlertPayload :=
  if !IsProbeRegistered st.probes result.ProbeID then
    (st, 403, none)
  else
    let log2 := st.log ++ [result]
    let stepped := engineStep result.CheckID (recentResultsPerProbe log2 result.CheckID)
      (fun probeID => recentResultsByProbe log2 result.CheckID probeID 2)
      (checkByID checks result.CheckID) st.incidents now
    ({ probes := st.probes, log := log2, incidents := stepped.1 }, 204, stepped.2)

/-- C9: a result from an unregistered probe is answered 403 and the whole
state (log and incident store included) is unchanged; a result from a
registered probe is appended to the log and answered 204. -/
theorem unregistered_probe_rejected (checks : List Check) (st : ServerState)
    (result : CheckResult) (now : Nat) :
    (IsProbeRegistered st.probes result.ProbeID = false →
      handleResult checks st result now = (st, 403, none))
    ∧ (IsProbeRegistered st.probes result.ProbeID = true →
      (handleResult checks st result now).2.1 = 204
        ∧ (handleResult checks st result now).1.log = st.log ++ [result]
        ∧ (handleResult checks st result now).1.probes = st.probes) := by
  constructor
  · intro h
    simp [handleResult, h]
  · intro h
    simp [handleResult, h]

/-- Witness for C9: a ghost probe is rejected with the state unchanged; the
same result from a registered probe is appended and acknowledged. -/
theorem unregistered_probe_rejected_witness :
    handleResult [] { probes := ["probe-a"], log := [], incidents := [] }
        (resultUp true) 0
      = ({ probes := ["probe-a"], log := [], incidents := [] }, 403, none)
    ∧ (handleResult [] { probes := [""], log := [], incidents := [] }
        (resultUp true) 0).2.1 = 204 := by
  constructor
  · exact (unregistered_probe_rejected [] { probes := ["probe-a"], log := [], incidents := [] }
      (resultUp true) 0).1 (by decide)
  · exact ((unregistered_probe_rejected [] { probes := [""], log := [], incidents := [] }
      (resultUp true) 0).2 (by decide)).1

/-- An executed checker call in the probe's main loop (cmd/wacht-probe):
which checker runs and with which (check_id, probe_id, target) arguments.
A check whose type falls through the switch produces no action (it is
logged and skipped, so no CheckResult is built or posted). -/
inductive ProbeAction where
  | http (checkID probeID target : String)
  | tcp (checkID probeID target : String)
  | dns (checkID probeID target : String)
deriving DecidableEq, Repr

/-- The switch statement of the probe main loop: http and the empty string
run the HTTP checker; tcp and dns run theirs; anything else is skipped. -/
def dispatchCheck (probeID : String) (c : Check) : Option ProbeAction :=
  if c.ty = "http" ∨ c.ty = "" then some (.http c.ID probeID c.Target)
  else if c.ty = "tcp" then some (.tcp c.ID probeID c.Target)
  else if c.ty = "dns" then some (.dns c.ID probeID c.Target)
  else none

/-- One round of the probe main loop: the checker calls whose results get
posted, in cached-check order (skipped checks contribute nothing). -/
def roundActions (probeID : String) (checks : List Check) : List ProbeAction :=
  checks.filterMap (dispatchCheck probeID)

/-- C10: a cached check with an empty type string is executed as an HTTP
check against its target, exactly as type http; any type outside
http, tcp, dns and the empty string yields no action at all, so no
CheckResult is produced or posted for it. -/
theorem empty_type_runs_http_unknown_skipped :
    (∀ (probeID : String) (c : Check), c.ty = "" →
      dispatchCheck probeID c = some (ProbeAction.http c.ID probeID c.Target)
        ∧ dispatchCheck probeID c = dispatchCheck probeID { c with ty := "http" })
    ∧ (∀ (probeID : String) (c : Check),
        c.ty ∉ (["http", "tcp", "dns", ""] : List String) →
      dispatchCheck probeID c = none ∧ roundActions probeID [c] = []) := by
  constructor
  · intro probeID c h
    constructor
    · simp [dispatchCheck, h]
    · simp [dispatchCheck, h]
  · intro probeID c h
    simp only [List.mem_cons, List.mem_singleton, not_or] at h
    obtain ⟨h1, h2, h3, h4, _⟩ := h
    have hd : dispatchCheck probeID c = none := by
      simp [dispatchCheck, h1, h2, h3, h4]
    exact ⟨hd, by simp [roundActions, hd]⟩

/-- Witness for C10: an empty-type check runs as HTTP; an icmp check is
skipped and contributes nothing to the round. -/
theorem empty_type_runs_http_unknown_skipped_witness :
    dispatchCheck "probe-a" { ID := "c1", ty := "", Target := "https://a.example", Webhook := "" }
      = some (ProbeAction.http "c1" "probe-a" "https://a.example")
    ∧ roundActions "probe-a"
        [{ ID := "c2", ty := "icmp", Target := "a.example", Webhook := "" }] = [] := by
  constructor
  · exact (empty_type_runs_http_unknown_skipped.1 "probe-a"
      { ID := "c1", ty := "", Target := "https://a.example", Webhook := "" } rfl).1
  · exact (empty_type_runs_http_unknown_skipped.2 "probe-a"
      { ID := "c2", ty := "icmp", Target := "a.example", Webhook := "" } (by decide)).2

end Wacht
